import Mathlib

/-!
# Verification of the browsermcp dual-protocol relay core

A shallow embedding of the WebSocket MCP server (`src/websocket-mcp-server.ts`),
the socket message sender (`src/types/messaging.ts`), the MCP configuration
(`config/mcp.config`), and the tool registry composition (the CLI entry point),
together with theorems settling the specification's claims about connection
classification, executor replacement, request correlation and timeout,
tool dispatch, and close-time cleanup.

Connections are identified by natural numbers.  JavaScript values arriving as
parsed JSON frames are modelled by the `Json` inductive; a frame whose payload
is not parseable JSON is the `Frame.malformed` case (in the source,
`JSON.parse` throws and the surrounding `catch` answers with a bare
`{error: {code: -32700, message: 'Parse error'}}` envelope).
-/

namespace BrowserMCP

/-- Parsed JSON values (the result of `JSON.parse` on a frame).
`JSON.parse` never produces `undefined`; an absent object field is modelled
by `Option.none` at the lookup site (`Json.getField`). -/
inductive Json where
  | null : Json
  | bool (b : Bool) : Json
  | num (n : Int) : Json
  | str (s : String) : Json
  | arr (elems : List Json) : Json
  | obj (fields : List (String × Json)) : Json

/-- Property access `value.key`: `some` the field value on an object that has
the key (first occurrence; JS object keys are unique), `none` (i.e. JS
`undefined`) otherwise. -/
def Json.getField : Json → String → Option Json
  | .obj fields, key => fields.lookup key
  | _, _ => none

/-- JavaScript truthiness of a parsed-JSON value (`undefined`, i.e. an absent
field, is handled at the use site as `Option.none`, which is falsy). -/
def Json.truthy : Json → Bool
  | .null => false
  | .bool b => b
  | .num n => n != 0
  | .str s => s != ""
  | .arr _ => true
  | .obj _ => true

/-- JavaScript string conversion as used by template literals in the source
(`Tool not found: ${name}` and the like).  Arrays stringify as their elements
joined by commas; plain objects as `[object Object]`. -/
def Json.jsString : Json → String
  | .null => "null"
  | .bool true => "true"
  | .bool false => "false"
  | .num n => toString n
  | .str s => s
  | .obj _ => "[object Object]"
  | .arr [] => ""
  | .arr [x] => x.jsString
  | .arr (x :: y :: rest) => x.jsString ++ "," ++ Json.jsString (.arr (y :: rest))

/-- String conversion of a possibly-absent value (an absent field interpolates
as `undefined`). -/
def jsDisplay : Option Json → String
  | none => "undefined"
  | some j => j.jsString

/-- `isExtensionMessage` (websocket-mcp-server.ts:122-125):
`message.type && typeof message.type === 'string' &&
['auth', 'capabilities', 'ping'].includes(message.type)`. -/
def isExtensionMessage (m : Json) : Bool :=
  match m.getField "type" with
  | some (.str s) => s != "" && (s == "auth" || s == "capabilities" || s == "ping")
  | some _ => false
  | none => false

/-- `isMCPMessage` (websocket-mcp-server.ts:127-130):
`message.jsonrpc === '2.0' && (message.method || message.result !== undefined
|| message.error !== undefined)`.  Note the strict comparison is against the
field `jsonrpc`, and `message.method` is a truthiness test. -/
def isMCPMessage (m : Json) : Bool :=
  (match m.getField "jsonrpc" with
   | some (.str s) => s == "2.0"
   | _ => false) &&
  ((match m.getField "method" with
    | some v => v.truthy
    | none => false) ||
   (m.getField "result").isSome || (m.getField "error").isSome)

example : isExtensionMessage (.obj [("type", .str "ping")]) = true := by decide
example : isExtensionMessage (.obj [("type", .str "execute")]) = false := by decide
example : isMCPMessage (.obj [("jsonrpc", .str "2.0"), ("method", .str "tools/list")]) = true := by
  decide
example : isMCPMessage (.obj [("protocolVersion", .str "2.0"), ("method", .str "tools/list")])
    = false := by decide

/-! ## Tools, resources, and the controller protocol handler -/

/-- The descriptor part of a tool (its `schema` field).  The real schema also
carries an `inputSchema`; only `name` and `description` are needed by the
claims, and lookup is by exact `name`. -/
structure ToolSchema where
  name : String
  description : String
deriving DecidableEq

/-- A registered tool: a descriptor plus its `handle(context, args)` handler.
The handler bodies live in tool modules outside the relay core; here a handler
is an abstract function from the (unvalidated) `arguments` value to either a
result or a thrown error message. -/
structure Tool where
  schema : ToolSchema
  handle : Option Json → Except String Json

/-- A registered resource: `schema.uri` plus its `read` outcome (abstract). -/
structure Resource where
  uri : String
  read : Except String Json

/-- JSON rendering of a tool descriptor as listed by `tools/list`. -/
def toolSchemaJson (s : ToolSchema) : Json :=
  .obj [("name", .str s.name), ("description", .str s.description)]

/-- Messages the server writes back on a connection. -/
inductive OutEnvelope where
  /-- `sendMCPResponse`: `{jsonrpc:'2.0', id, result}`. -/
  | mcpResult (id : Option Json) (result : Json)
  /-- `sendMCPError`: `{jsonrpc:'2.0', id, error:{code, message}}`. -/
  | mcpErr (id : Option Json) (code : Int) (message : String)
  /-- The bare `{error:{code, message}}` envelope sent from the
  `catch` block of the message handler (no `jsonrpc`, no `id`). -/
  | bareErr (code : Int) (message : String)
  /-- An executor-protocol reply such as `{type:'auth_success'}`. -/
  | extMsg (j : Json)

/-- Observable actions of the server while processing one event, in order. -/
inductive Effect where
  /-- A message sent back on the connection being handled. -/
  | sendEnvelope (e : OutEnvelope)
  /-- `ws.close()` called on another connection (executor replacement). -/
  | closeWs (target : Nat)
  /-- `tool.handle(context, args)` was invoked for the named tool. -/
  | ranTool (name : String)

/-- `handleExtensionMessage` (websocket-mcp-server.ts:132-156): the executor
control sub-protocol.  `now` is the value of `Date.now()` used in the `pong`
reply; unknown types are logged and ignored. -/
def handleExtensionMessage (now : Int) (m : Json) : List Effect :=
  match m.getField "type" with
  | some (.str "auth") => [.sendEnvelope (.extMsg (.obj [("type", .str "auth_success")]))]
  | some (.str "capabilities") =>
      [.sendEnvelope (.extMsg (.obj [("type", .str "capabilities_received")]))]
  | some (.str "ping") =>
      [.sendEnvelope (.extMsg (.obj [("type", .str "pong"), ("timestamp", .num now)]))]
  | _ => []

/-- The lookup predicate of `handleToolCall`: `t.schema.name === name`, a
strict comparison of the tool's name string with the request's `name` value. -/
def toolNameMatches (nm : Option Json) (t : Tool) : Bool :=
  match nm with
  | some (.str s) => s == t.schema.name
  | _ => false

/-- `handleToolCall` (websocket-mcp-server.ts:193-209).  Destructuring
`message.params` throws when `params` is absent or `null`; that throw is
caught by `handleMCPMessage`'s `catch`, which answers `-32603 Internal error`
(modelled by the first two arms).  Otherwise the tool is found by exact name
(`-32602` when absent), and its handler is invoked on the `arguments` value
as given — a rejected handler yields `-32603`. -/
def handleToolCall (tools : List Tool) (mid : Option Json) (params : Option Json) :
    List Effect :=
  match params with
  | none => [.sendEnvelope (.mcpErr mid (-32603) "Internal error")]
  | some .null => [.sendEnvelope (.mcpErr mid (-32603) "Internal error")]
  | some p =>
      let nm := p.getField "name"
      match tools.find? (toolNameMatches nm) with
      | none => [.sendEnvelope (.mcpErr mid (-32602) ("Tool not found: " ++ jsDisplay nm))]
      | some tool =>
          match tool.handle (p.getField "arguments") with
          | .ok r => [.ranTool tool.schema.name, .sendEnvelope (.mcpResult mid r)]
          | .error e =>
              [.ranTool tool.schema.name,
               .sendEnvelope (.mcpErr mid (-32603) ("Tool execution failed: " ++ e))]

/-- `handleResourceRead` (websocket-mcp-server.ts:216-232), mirroring
`handleToolCall` keyed by `uri`. -/
def handleResourceRead (resources : List Resource) (mid : Option Json)
    (params : Option Json) : List Effect :=
  match params with
  | none => [.sendEnvelope (.mcpErr mid (-32603) "Internal error")]
  | some .null => [.sendEnvelope (.mcpErr mid (-32603) "Internal error")]
  | some p =>
      let u := p.getField "uri"
      match resources.find? (fun r =>
        match u with
        | some (.str s) => s == r.uri
        | _ => false) with
      | none => [.sendEnvelope (.mcpErr mid (-32602) ("Resource not found: " ++ jsDisplay u))]
      | some r =>
          match r.read with
          | .ok contents =>
              [.sendEnvelope (.mcpResult mid (.obj [("contents", contents)]))]
          | .error e =>
              [.sendEnvelope (.mcpErr mid (-32603) ("Resource read failed: " ++ e))]

/-- `handleMCPMessage` (websocket-mcp-server.ts:158-186): the `switch` on
`message.method` over the four supported methods, defaulting to
`-32601 Method not found`. -/
def handleMCPMessage (tools : List Tool) (resources : List Resource) (m : Json) :
    List Effect :=
  match m.getField "method" with
  | some (.str "tools/list") =>
      [.sendEnvelope (.mcpResult (m.getField "id")
        (.obj [("tools", .arr (tools.map (fun t => toolSchemaJson t.schema)))]))]
  | some (.str "tools/call") =>
      handleToolCall tools (m.getField "id") (m.getField "params")
  | some (.str "resources/list") =>
      [.sendEnvelope (.mcpResult (m.getField "id")
        (.obj [("resources", .arr (resources.map (fun r => .obj [("uri", .str r.uri)])))]))]
  | some (.str "resources/read") =>
      handleResourceRead resources (m.getField "id") (m.getField "params")
  | mth =>
      [.sendEnvelope (.mcpErr (m.getField "id") (-32601)
        ("Method not found: " ++ jsDisplay mth))]

/-! ## The connection classifier & router -/

/-- The per-connection `connectionType` local of `handleConnection`. -/
inductive ConnType where
  | unknown
  | extension
  | mcp
deriving DecidableEq

/-- The server's mutable state shared across connections: the two role sets
(`extensionConnections`, `mcpConnections`) and the Execution Context's single
executor-channel slot (`this.context.ws`, `none` when `hasWs()` is false). -/
structure ServerState where
  extensionConnections : Finset Nat
  mcpConnections : Finset Nat
  contextWs : Option Nat
deriving DecidableEq

/-- One inbound frame on a connection: either its payload parses as JSON, or
`JSON.parse` throws (`malformed`). -/
inductive Frame where
  | malformed
  | json (m : Json)

/-- The `message` callback registered by `handleConnection`
(websocket-mcp-server.ts:67-104) for the connection `w`, given the
connection's current `connectionType` `ct`.  On a parse failure the `catch`
answers with the bare `-32700` envelope and nothing else changes.  On a
parsed message: if the connection is still unclassified, it is classified
(executor classification closes any previous context channel and installs
`w`); then the message is routed by the (possibly just-updated) type, with
unclassified connections receiving no routing at all.  Returns the new server
state, the new `connectionType`, and the effects in order. -/
def handleConnectionMessage (tools : List Tool) (resources : List Resource) (now : Int)
    (s : ServerState) (w : Nat) (ct : ConnType) (f : Frame) :
    ServerState × ConnType × List Effect :=
  match f with
  | .malformed => (s, ct, [.sendEnvelope (.bareErr (-32700) "Parse error")])
  | .json m =>
      let classified : ServerState × ConnType × List Effect :=
        if ct = .unknown then
          if isExtensionMessage m then
            ({ s with extensionConnections := insert w s.extensionConnections,
                      contextWs := some w },
             .extension,
             match s.contextWs with
             | some old => [.closeWs old]
             | none => [])
          else if isMCPMessage m then
            ({ s with mcpConnections := insert w s.mcpConnections }, .mcp, [])
          else (s, ct, [])
        else (s, ct, [])
      match classified with
      | (s1, .extension, effs) => (s1, .extension, effs ++ handleExtensionMessage now m)
      | (s1, .mcp, effs) => (s1, .mcp, effs ++ handleMCPMessage tools resources m)
      | (s1, .unknown, effs) => (s1, .unknown, effs)

/-- The `close` callback registered by `handleConnection`
(websocket-mcp-server.ts:106-115): remove the connection from both role sets,
and clear the Execution Context's channel only when this connection is it
(`this.context.hasWs() && this.context.ws === ws`). -/
def handleConnectionClose (s : ServerState) (w : Nat) : ServerState :=
  let s1 : ServerState :=
    { s with extensionConnections := s.extensionConnections.erase w,
             mcpConnections := s.mcpConnections.erase w }
  if s1.contextWs = some w then { s1 with contextWs := none } else s1

/-! ## The socket message sender (`src/types/messaging.ts`) -/

/-- The `timeoutMs = 30000` default of `sendSocketMessage`. -/
def defaultTimeoutMs : Nat := 30000

/-- The two immediate-rejection kinds of the forwarding path. -/
inductive SendFailure where
  | timeoutErr (message : String)
  | noExecutor (message : String)
deriving DecidableEq

/-- The state of one in-flight `sendSocketMessage` call: the generated
correlation `messageId`, the absolute time at which its `setTimeout` fires
(`startTime + timeoutMs`), whether that timer is still armed
(`clearTimeout` not yet called and not yet fired), whether `handleMessage`
is still attached to the socket (`ws.off` not yet called), and the settled
value of the returned promise (`none` while pending; a promise settles at
most once — later `resolve`/`reject` calls are no-ops). -/
structure PendingReq where
  messageId : String
  deadline : Nat
  timerActive : Bool
  listenerRegistered : Bool
  settled : Option (Except SendFailure (Option Json))

/-- Settle a promise: only the first settlement takes effect. -/
def settle (cur : Option (Except SendFailure (Option Json)))
    (v : Except SendFailure (Option Json)) : Option (Except SendFailure (Option Json)) :=
  match cur with
  | some x => some x
  | none => some v

/-- The state set up by `sendSocketMessage` (messaging.ts:293-340) once
`{id, type, payload}` has been written to the socket at time `startTime`:
the timer is armed for `timeoutMs` (default 30000) milliseconds and
`handleMessage` is attached. -/
def startSend (msgId : String) (startTime : Nat) (timeoutMs : Option Nat) : PendingReq :=
  { messageId := msgId,
    deadline := startTime + timeoutMs.getD defaultTimeoutMs,
    timerActive := true,
    listenerRegistered := true,
    settled := none }

/-- Events a pending send can observe: its timer firing, or a frame arriving
on the executor socket. -/
inductive SendEvent where
  | timerFires
  | wsMessage (f : Frame)

/-- One step of a pending send, from the source of `sendSocketMessage`:
the timeout callback is `reject(new Error('Message timeout'))` — it does NOT
call `ws.off`, so the listener stays attached; `handleMessage` ignores
unparseable frames, and on a frame whose `id` strictly equals the generated
`messageId` it calls `clearTimeout`, detaches itself with `ws.off`, and
resolves with `response.payload`. -/
def stepPending (p : PendingReq) (e : SendEvent) : PendingReq :=
  match e with
  | .timerFires =>
      if p.timerActive then
        { p with timerActive := false,
                 settled := settle p.settled (.error (.timeoutErr "Message timeout")) }
      else p
  | .wsMessage f =>
      if p.listenerRegistered then
        match f with
        | .malformed => p
        | .json r =>
            match r.getField "id" with
            | some (.str s) =>
                if s == p.messageId then
                  { p with timerActive := false,
                           listenerRegistered := false,
                           settled := settle p.settled (.ok (r.getField "payload")) }
                else p
            | _ => p
      else p

/-- A run of events applied to a pending send. -/
def runPending (p : PendingReq) (es : List SendEvent) : PendingReq :=
  es.foldl stepPending p

/-- `mcpConfig` (`config/mcp.config`): the error strings and defaults. -/
structure McpConfig where
  noConnectedTab : String
  wsTimeout : Nat
  defaultWsPort : Nat

def mcpConfig : McpConfig :=
  { noConnectedTab := "No connected tab available",
    wsTimeout := 30000,
    defaultWsPort := 9234 }

/-- The outcome of starting `sendToExecutor`: either an immediate rejection
with no timer armed and no listener attached, or a started pending request on
a concrete target channel. -/
inductive SendStart where
  | failedNoExecutor (message : String)
  | started (target : Nat) (p : PendingReq)

/-- Modelled from the spec: the Execution Context class (`@/context`) is not
under `src/`; only its call sites in `websocket-mcp-server.ts` and the socket
message sender in `src/types/messaging.ts` are.  Per the spec's Execution
Context contract, `sendToExecutor` fails immediately — registering no pending
entry and arming no timer — with a no-executor error whose message is
`mcpConfig.errors.noConnectedTab` ("No connected tab available") when no
executor channel is current; otherwise it starts a pending request on the
current channel via the socket message sender. -/
def sendToExecutor (ctxWs : Option Nat) (msgId : String) (startTime : Nat)
    (timeoutMs : Option Nat) : SendStart :=
  match ctxWs with
  | none => .failedNoExecutor mcpConfig.noConnectedTab
  | some w => .started w (startSend msgId startTime timeoutMs)

/-! ## The tool registry -/

/-- Modelled from the spec: the tool modules `@/tools/common`,
`@/tools/snapshot` and `@/tools/custom` are not under `src/`.  The
composition and order of the registry are from the CLI entry point's
`snapshotTools` list; each entry's `name` and `description` are the literal
descriptors of the corresponding zod tool types in the source
(`NavigateTool`, `GoBackTool`, …) and the spec's section 6 tool surface. -/
def snapshotToolSchemas : List ToolSchema :=
  [⟨"navigate", "Navigate to a URL or use browser history"⟩,
   ⟨"go_back", "Navigate back in browser history"⟩,
   ⟨"go_forward", "Navigate forward in browser history"⟩,
   ⟨"snapshot", "Take a snapshot of the current page structure"⟩,
   ⟨"click", "Click on an element on the page"⟩,
   ⟨"hover", "Hover over an element"⟩,
   ⟨"type", "Type text into an input field"⟩,
   ⟨"select_option", "Select an option from a dropdown"⟩,
   ⟨"press_key", "Press a keyboard key"⟩,
   ⟨"wait", "Wait for a specified amount of time"⟩,
   ⟨"get_console_logs", "Get console logs from the current page"⟩,
   ⟨"screenshot", "Take a screenshot of the current page"⟩]

/-- The registry handed to `new WebSocketMCPServer(snapshotTools, resources)`,
parametric in the handler implementations (which live outside the relay
core): `h name` is the `handle` of the tool called `name`. -/
def snapshotTools (h : String → Option Json → Except String Json) : List Tool :=
  snapshotToolSchemas.map (fun s => { schema := s, handle := h s.name })

/-- A trivial handler implementation used for concrete evaluations. -/
def hNull : String → Option Json → Except String Json :=
  fun _ _ => .ok .null

/-- The argument validator of the `ClickTool` zod descriptor:
`z.object({ element: z.string() })` — the input must be an object whose
`element` field is a string (zod strips unknown keys; non-objects, `null`
and absent input are invalid). -/
def clickArgumentsValid : Option Json → Bool
  | some (.obj fields) =>
      match fields.lookup "element" with
      | some (.str _) => true
      | _ => false
  | _ => false

example : (snapshotTools hNull).length = 12 := by decide
example : clickArgumentsValid (some (.obj [])) = false := by decide
example : clickArgumentsValid (some (.obj [("element", .str "#btn")])) = true := by decide

/-! ## Helper lemmas -/

/-- A settled promise never changes value again: every later event leaves the
settled result as it is (a second `resolve`/`reject` is a no-op). -/
theorem stepPending_settled_stays (p : PendingReq) (v : Except SendFailure (Option Json))
    (hp : p.settled = some v) (e : SendEvent) : (stepPending p e).settled = some v := by
  cases e with
  | timerFires =>
      simp only [stepPending]
      split
      · simp [settle, hp]
      · exact hp
  | wsMessage f =>
      simp only [stepPending]
      split
      · split
        · exact hp
        · split
          · split
            · simp [settle, hp]
            · exact hp
          · exact hp
      · exact hp

/-- Reduction of `handleMCPMessage` for a `tools/call` request. -/
theorem handleMCPMessage_toolsCall (tools : List Tool) (resources : List Resource)
    (m : Json) (hm : m.getField "method" = some (.str "tools/call")) :
    handleMCPMessage tools resources m
      = handleToolCall tools (m.getField "id") (m.getField "params") := by
  unfold handleMCPMessage
  rw [hm]
  rfl

/-- Reduction of `handleMCPMessage` for a `tools/list` request. -/
theorem handleMCPMessage_toolsList (tools : List Tool) (resources : List Resource)
    (m : Json) (hm : m.getField "method" = some (.str "tools/list")) :
    handleMCPMessage tools resources m
      = [.sendEnvelope (.mcpResult (m.getField "id")
          (.obj [("tools", .arr (tools.map (fun t => toolSchemaJson t.schema)))]))] := by
  unfold handleMCPMessage
  rw [hm]
  rfl

/-- Reduction of `handleToolCall` when `params` is an object (the JS
destructuring succeeded). -/
theorem handleToolCall_obj (tools : List Tool) (mid : Option Json)
    (fields : List (String × Json)) :
    handleToolCall tools mid (some (.obj fields))
      = match tools.find? (toolNameMatches ((Json.obj fields).getField "name")) with
        | none => [.sendEnvelope (.mcpErr mid (-32602)
            ("Tool not found: " ++ jsDisplay ((Json.obj fields).getField "name")))]
        | some tool =>
            match tool.handle ((Json.obj fields).getField "arguments") with
            | .ok r => [.ranTool tool.schema.name, .sendEnvelope (.mcpResult mid r)]
            | .error e =>
                [.ranTool tool.schema.name,
                 .sendEnvelope (.mcpErr mid (-32603) ("Tool execution failed: " ++ e))] := rfl

/-- The names of the statically composed registry, independent of the handler
implementations. -/
theorem snapshotTools_names (h : String → Option Json → Except String Json) :
    (snapshotTools h).map (fun t => t.schema.name)
      = ["navigate", "go_back", "go_forward", "snapshot", "click", "hover", "type",
         "select_option", "press_key", "wait", "get_console_logs", "screenshot"] := rfl

/-! ## The claims -/

/-- C5: for every `sendToExecutor` call made while no executor channel is
current, the call rejects immediately — no timer is armed and no pending
entry is registered (the `failedNoExecutor` outcome carries neither) — with
the no-executor failure whose message is "No connected tab available"
(`mcpConfig.errors.noConnectedTab`). -/
theorem c5_no_executor_rejects_immediately (msgId : String) (startTime : Nat)
    (timeoutMs : Option Nat) :
    sendToExecutor none msgId startTime timeoutMs
      = .failedNoExecutor "No connected tab available" := rfl

/-- C6: for every `tools/call` request whose `params.name` is a string that
matches no tool name of the registry, the only effect is an error envelope
with code `-32602` carrying the request's own `id` — in particular no
`ranTool` effect occurs, so no tool handler is invoked. -/
theorem c6_unknown_tool_errors (tools : List Tool) (resources : List Resource)
    (m : Json) (fields : List (String × Json)) (s : String)
    (hm : m.getField "method" = some (.str "tools/call"))
    (hp : m.getField "params" = some (.obj fields))
    (hn : (Json.obj fields).getField "name" = some (.str s))
    (hs : s ∉ tools.map (fun t => t.schema.name)) :
    handleMCPMessage tools resources m
      = [.sendEnvelope (.mcpErr (m.getField "id") (-32602) ("Tool not found: " ++ s))] := by
  have hfind : tools.find? (toolNameMatches (some (.str s))) = none := by
    rw [List.find?_eq_none]
    intro t ht
    simp only [toolNameMatches, beq_iff_eq]
    intro hEq
    exact hs (hEq ▸ List.mem_map_of_mem (fun t => t.schema.name) ht)
  rw [handleMCPMessage_toolsCall tools resources m hm, hp, handleToolCall_obj, hn, hfind]
  simp [jsDisplay, Json.jsString]

/-- C6 witness: a concrete `tools/call` for the unknown tool name `"nope"`
against the static registry yields exactly the `-32602` error echoing the
request id `42`. -/
theorem c6_unknown_tool_errors_witness :
    ((Json.obj [("jsonrpc", .str "2.0"), ("id", .num 42), ("method", .str "tools/call"),
        ("params", .obj [("name", .str "nope")])]).getField "method"
      = some (.str "tools/call")) ∧
    ("nope" ∉ (snapshotTools hNull).map (fun t => t.schema.name)) ∧
    handleMCPMessage (snapshotTools hNull) []
        (.obj [("jsonrpc", .str "2.0"), ("id", .num 42), ("method", .str "tools/call"),
          ("params", .obj [("name", .str "nope")])])
      = [.sendEnvelope (.mcpErr (some (.num 42)) (-32602) "Tool not found: nope")] :=
  ⟨rfl, by decide,
   c6_unknown_tool_errors (snapshotTools hNull) [] _ [("name", .str "nope")] "nope"
     rfl rfl rfl (by decide)⟩

/-- C7: a frame whose payload is not parseable JSON makes the server answer
with the bare error envelope of code `-32700` ("Parse error"); the server
state and the connection's classification are unchanged, so the connection
remains usable — any subsequent frame is processed exactly as if the
malformed one had never arrived. -/
theorem c7_parse_error_keeps_connection (tools : List Tool) (resources : List Resource)
    (now : Int) (s : ServerState) (w : Nat) (ct : ConnType) :
    handleConnectionMessage tools resources now s w ct .malformed
      = (s, ct, [.sendEnvelope (.bareErr (-32700) "Parse error")]) ∧
    ∀ f, handleConnectionMessage tools resources now
          (handleConnectionMessage tools resources now s w ct .malformed).1 w
          (handleConnectionMessage tools resources now s w ct .malformed).2.1 f
        = handleConnectionMessage tools resources now s w ct f :=
  ⟨rfl, fun _ => rfl⟩

/-- C8: when a connection closes it is removed from both role sets; the
Execution Context's channel is cleared when the closing connection is the
current channel, and is left exactly as it was — no replacement installed —
when it is not. -/
theorem c8_close_cleanup (s : ServerState) (w : Nat) :
    w ∉ (handleConnectionClose s w).extensionConnections ∧
    w ∉ (handleConnectionClose s w).mcpConnections ∧
    (s.contextWs = some w → (handleConnectionClose s w).contextWs = none) ∧
    (s.contextWs ≠ some w → (handleConnectionClose s w).contextWs = s.contextWs) := by
  unfold handleConnectionClose
  by_cases h : s.contextWs = some w <;>
    simp [h, Finset.not_mem_erase]

/-- C8 witness: closing connection `2` while it is the current channel clears
the slot; closing connection `2` while `3` is current leaves `3` current. -/
theorem c8_close_cleanup_witness :
    ((⟨{1, 2}, {2, 3}, some 2⟩ : ServerState).contextWs = some 2 ∧
     (handleConnectionClose ⟨{1, 2}, {2, 3}, some 2⟩ 2).contextWs = none) ∧
    ((⟨{1, 2}, {2, 3}, some 3⟩ : ServerState).contextWs ≠ some 2 ∧
     (handleConnectionClose ⟨{1, 2}, {2, 3}, some 3⟩ 2).contextWs = some 3) ∧
    2 ∉ (handleConnectionClose ⟨{1, 2}, {2, 3}, some 2⟩ 2).extensionConnections ∧
    2 ∉ (handleConnectionClose ⟨{1, 2}, {2, 3}, some 2⟩ 2).mcpConnections :=
  ⟨⟨rfl, (c8_close_cleanup ⟨{1, 2}, {2, 3}, some 2⟩ 2).2.2.1 rfl⟩,
   ⟨by decide, (c8_close_cleanup ⟨{1, 2}, {2, 3}, some 3⟩ 2).2.2.2 (by decide)⟩,
   (c8_close_cleanup ⟨{1, 2}, {2, 3}, some 2⟩ 2).1,
   (c8_close_cleanup ⟨{1, 2}, {2, 3}, some 2⟩ 2).2.1⟩

/-- C9: every `tools/list` request on a classified controller (`mcp`)
connection succeeds with a `result` whose `tools` sequence lists the whole
registry: its length equals the registry size, which is 12 for the statically
composed tool list; the entries include one named "snapshot" and all entry
names are mutually distinct.  Holds for every handler implementation `h`. -/
theorem c9_tools_list_registry (h : String → Option Json → Except String Json)
    (resources : List Resource) (now : Int) (s : ServerState) (w : Nat) (m : Json)
    (hm : m.getField "method" = some (.str "tools/list")) :
    handleConnectionMessage (snapshotTools h) resources now s w .mcp (.json m)
      = (s, .mcp, [.sendEnvelope (.mcpResult (m.getField "id")
          (.obj [("tools",
            .arr ((snapshotTools h).map (fun t => toolSchemaJson t.schema)))]))]) ∧
    ((snapshotTools h).map (fun t => toolSchemaJson t.schema)).length
      = (snapshotTools h).length ∧
    (snapshotTools h).length = 12 ∧
    "snapshot" ∈ (snapshotTools h).map (fun t => t.schema.name) ∧
    ((snapshotTools h).map (fun t => t.schema.name)).Nodup := by
  refine ⟨?_, rfl, rfl, ?_, ?_⟩
  · show (_, ConnType.mcp, [] ++ handleMCPMessage (snapshotTools h) resources m) = _
    rw [handleMCPMessage_toolsList (snapshotTools h) resources m hm]
    rfl
  · rw [snapshotTools_names]
    decide
  · rw [snapshotTools_names]
    decide

/-- C9 witness: the concrete `tools/list` request with id 1 on a classified
controller connection. -/
theorem c9_tools_list_registry_witness :
    ((Json.obj [("jsonrpc", .str "2.0"), ("id", .num 1), ("method", .str "tools/list"),
        ("params", .obj [])]).getField "method" = some (.str "tools/list")) ∧
    (handleConnectionMessage (snapshotTools hNull) [] 0 ⟨∅, ∅, none⟩ 7 .mcp
        (.json (.obj [("jsonrpc", .str "2.0"), ("id", .num 1),
          ("method", .str "tools/list"), ("params", .obj [])]))
      = (⟨∅, ∅, none⟩, .mcp, [.sendEnvelope (.mcpResult (some (.num 1))
          (.obj [("tools",
            .arr ((snapshotTools hNull).map (fun t => toolSchemaJson t.schema)))]))]) ∧
     ((snapshotTools hNull).map (fun t => toolSchemaJson t.schema)).length
       = (snapshotTools hNull).length ∧
     (snapshotTools hNull).length = 12 ∧
     "snapshot" ∈ (snapshotTools hNull).map (fun t => t.schema.name) ∧
     ((snapshotTools hNull).map (fun t => t.schema.name)).Nodup) :=
  ⟨rfl, c9_tools_list_registry hNull [] 0 ⟨∅, ∅, none⟩ 7 _ rfl⟩

/-- C10: a first message that parses as JSON but matches neither the executor
keyword predicate nor the controller envelope predicate produces no effect at
all — no message is sent back and no connection is closed — the server state
is unchanged and the connection stays unclassified, so the very next frame is
processed (classification and all) exactly as the first one was. -/
theorem c10_unmatched_first_message (tools : List Tool) (resources : List Resource)
    (now : Int) (s : ServerState) (w : Nat) (m : Json)
    (hext : isExtensionMessage m = false) (hmcp : isMCPMessage m = false) :
    handleConnectionMessage tools resources now s w .unknown (.json m)
      = (s, .unknown, []) ∧
    ∀ f, handleConnectionMessage tools resources now
          (handleConnectionMessage tools resources now s w .unknown (.json m)).1 w
          (handleConnectionMessage tools resources now s w .unknown (.json m)).2.1 f
        = handleConnectionMessage tools resources now s w .unknown f := by
  have h1 : handleConnectionMessage tools resources now s w .unknown (.json m)
      = (s, .unknown, []) := by
    simp [handleConnectionMessage, hext, hmcp]
  exact ⟨h1, fun f => by rw [h1]⟩

/-- C10 witness: a JSON object matching neither predicate (`{"hello":"x"}`)
leaves everything untouched. -/
theorem c10_unmatched_first_message_witness :
    isExtensionMessage (.obj [("hello", .str "x")]) = false ∧
    isMCPMessage (.obj [("hello", .str "x")]) = false ∧
    (handleConnectionMessage (snapshotTools hNull) [] 0 ⟨∅, ∅, none⟩ 4 .unknown
        (.json (.obj [("hello", .str "x")])) = (⟨∅, ∅, none⟩, .unknown, []) ∧
     ∀ f, handleConnectionMessage (snapshotTools hNull) [] 0
          (handleConnectionMessage (snapshotTools hNull) [] 0 ⟨∅, ∅, none⟩ 4 .unknown
            (.json (.obj [("hello", .str "x")]))).1 4
          (handleConnectionMessage (snapshotTools hNull) [] 0 ⟨∅, ∅, none⟩ 4 .unknown
            (.json (.obj [("hello", .str "x")]))).2.1 f
        = handleConnectionMessage (snapshotTools hNull) [] 0 ⟨∅, ∅, none⟩ 4 .unknown f) :=
  ⟨by decide, by decide,
   c10_unmatched_first_message (snapshotTools hNull) [] 0 ⟨∅, ∅, none⟩ 4 _
     (by decide) (by decide)⟩

/-- C1 counterexample: the claim's own envelope — a first message of exactly
the form `{"protocolVersion":"2.0","id":1,"method":"tools/list","params":{}}`
— is NOT classified as a controller: `isMCPMessage` strictly compares the
field `jsonrpc` (not `protocolVersion`) with `"2.0"`, so the connection stays
unclassified, is not added to the controller set, and nothing is dispatched.
Likewise a message that does carry `jsonrpc:"2.0"` together with a `method`
that is the (falsy) empty string and no `result`/`error` is not classified,
although it is of the claimed form (`method` a string, `params` an object). -/
theorem c1_counterexample :
    (isMCPMessage (.obj [("protocolVersion", .str "2.0"), ("id", .num 1),
        ("method", .str "tools/list"), ("params", .obj [])]) = false ∧
     handleConnectionMessage (snapshotTools hNull) [] 0 ⟨∅, ∅, none⟩ 1 .unknown
        (.json (.obj [("protocolVersion", .str "2.0"), ("id", .num 1),
          ("method", .str "tools/list"), ("params", .obj [])]))
       = (⟨∅, ∅, none⟩, .unknown, [])) ∧
    (isMCPMessage (.obj [("jsonrpc", .str "2.0"), ("id", .num 1),
        ("method", .str ""), ("params", .obj [])]) = false ∧
     handleConnectionMessage (snapshotTools hNull) [] 0 ⟨∅, ∅, none⟩ 1 .unknown
        (.json (.obj [("jsonrpc", .str "2.0"), ("id", .num 1),
          ("method", .str ""), ("params", .obj [])]))
       = (⟨∅, ∅, none⟩, .unknown, [])) :=
  ⟨⟨by decide, rfl⟩, ⟨by decide, rfl⟩⟩

/-- C1 (amended): for every connection whose first message parses as JSON and
is request/response-shaped per the controller envelope rule as the code has
it — the envelope field is `jsonrpc` (not `protocolVersion`) equal to `"2.0"`
together with a truthy (in particular non-empty-string) `method`, or a
`result` or `error` field being present — and which does not match the
executor keyword set, the connection is classified as `mcp`/`controller` on
that first message, added to the controller connection set, and the request
is dispatched to the controller handler (`handleMCPMessage`). -/
theorem c1_classify_mcp (tools : List Tool) (resources : List Resource) (now : Int)
    (s : ServerState) (w : Nat) (m : Json)
    (hext : isExtensionMessage m = false) (hmcp : isMCPMessage m = true) :
    handleConnectionMessage tools resources now s w .unknown (.json m)
      = ({ s with mcpConnections := insert w s.mcpConnections }, .mcp,
         handleMCPMessage tools resources m) := by
  simp [handleConnectionMessage, hext, hmcp]

/-- C1 witness: a concrete `{"jsonrpc":"2.0","id":1,"method":"tools/list",
"params":{}}` first message is classified `mcp`, added to the controller set,
and dispatched. -/
theorem c1_classify_mcp_witness :
    isExtensionMessage (.obj [("jsonrpc", .str "2.0"), ("id", .num 1),
        ("method", .str "tools/list"), ("params", .obj [])]) = false ∧
    isMCPMessage (.obj [("jsonrpc", .str "2.0"), ("id", .num 1),
        ("method", .str "tools/list"), ("params", .obj [])]) = true ∧
    handleConnectionMessage (snapshotTools hNull) [] 0 ⟨∅, ∅, none⟩ 9 .unknown
        (.json (.obj [("jsonrpc", .str "2.0"), ("id", .num 1),
          ("method", .str "tools/list"), ("params", .obj [])]))
      = (⟨∅, {9}, none⟩, .mcp,
         handleMCPMessage (snapshotTools hNull) []
           (.obj [("jsonrpc", .str "2.0"), ("id", .num 1),
             ("method", .str "tools/list"), ("params", .obj [])])) :=
  ⟨by decide, by decide,
   c1_classify_mcp (snapshotTools hNull) [] 0 ⟨∅, ∅, none⟩ 9 _ (by decide) (by decide)⟩

/-- C2: from every state in which an executor channel `old` is current, a
first message matching the executor keyword set classifies the new
connection `w` as executor, adds it to the executor set, closes `old`
(the `closeWs old` effect), and installs `w` as the current channel, so that
every subsequent `sendToExecutor` starts its pending request on `w` and on
`w` only. -/
theorem c2_executor_replacement (tools : List Tool) (resources : List Resource)
    (now : Int) (s : ServerState) (w old : Nat) (m : Json)
    (hcur : s.contextWs = some old) (hext : isExtensionMessage m = true) :
    handleConnectionMessage tools resources now s w .unknown (.json m)
      = ({ s with extensionConnections := insert w s.extensionConnections,
                  contextWs := some w },
         .extension,
         .closeWs old :: handleExtensionMessage now m) ∧
    ∀ msgId startTime timeoutMs,
      sendToExecutor
          (handleConnectionMessage tools resources now s w .unknown (.json m)).1.contextWs
          msgId startTime timeoutMs
        = .started w (startSend msgId startTime timeoutMs) := by
  have h1 : handleConnectionMessage tools resources now s w .unknown (.json m)
      = ({ s with extensionConnections := insert w s.extensionConnections,
                  contextWs := some w },
         .extension,
         .closeWs old :: handleExtensionMessage now m) := by
    simp [handleConnectionMessage, hext, hcur]
  exact ⟨h1, fun msgId startTime timeoutMs => by rw [h1]; rfl⟩

/-- C2 witness: with connection 3 current, an executor-classifying first
message (`{"type":"ping"}`) on connection 5 closes 3, installs 5, and
subsequent forwarding targets 5. -/
theorem c2_executor_replacement_witness :
    ((⟨{3}, ∅, some 3⟩ : ServerState).contextWs = some 3) ∧
    isExtensionMessage (.obj [("type", .str "ping")]) = true ∧
    (handleConnectionMessage (snapshotTools hNull) [] 0 ⟨{3}, ∅, some 3⟩ 5 .unknown
        (.json (.obj [("type", .str "ping")]))
      = (⟨insert 5 {3}, ∅, some 5⟩, .extension,
         .closeWs 3 :: handleExtensionMessage 0 (.obj [("type", .str "ping")])) ∧
     ∀ msgId startTime timeoutMs,
       sendToExecutor
           (handleConnectionMessage (snapshotTools hNull) [] 0 ⟨{3}, ∅, some 3⟩ 5 .unknown
             (.json (.obj [("type", .str "ping")]))).1.contextWs
           msgId startTime timeoutMs
         = .started 5 (startSend msgId startTime timeoutMs)) :=
  ⟨rfl, by decide,
   c2_executor_replacement (snapshotTools hNull) [] 0 ⟨{3}, ∅, some 3⟩ 5 3 _
     rfl (by decide)⟩

/-- C3 counterexample: at a concrete pending send (correlation id "abc123",
started at time 0 with the default timeout), the timer firing rejects the
deferred result with the timeout failure, but the pending correlation entry
is NOT removed: the `handleMessage` listener is still registered afterwards
(the timeout callback never calls `ws.off`), contradicting the claim that the
entry is removed from the pending set on timeout. -/
theorem c3_counterexample :
    (stepPending (startSend "abc123" 0 none) .timerFires).settled
        = some (.error (.timeoutErr "Message timeout")) ∧
    (stepPending (startSend "abc123" 0 none) .timerFires).listenerRegistered = true :=
  ⟨rfl, rfl⟩

/-- C3 (amended): a `sendSocketMessage` whose matching response never arrives
is rejected with the timeout failure when its timer fires, and the timer is
scheduled exactly `timeoutMs` (default 30000 ms) after the send; however the
pending correlation entry is NOT removed on timeout — the message listener
stays registered — and a later arrival of a frame carrying the same
correlation id is a no-op only in the sense that the settled (rejected)
result never changes. -/
theorem c3_timeout_behaviour (msgId : String) (startTime : Nat) (timeoutMs : Option Nat) :
    (startSend msgId startTime timeoutMs).deadline
        = startTime + timeoutMs.getD 30000 ∧
    (startSend msgId startTime none).deadline = startTime + 30000 ∧
    (stepPending (startSend msgId startTime timeoutMs) .timerFires).settled
        = some (.error (.timeoutErr "Message timeout")) ∧
    (stepPending (startSend msgId startTime timeoutMs) .timerFires).listenerRegistered
        = true ∧
    ∀ e : SendEvent,
      (stepPending (stepPending (startSend msgId startTime timeoutMs) .timerFires) e).settled
        = some (.error (.timeoutErr "Message timeout")) :=
  ⟨rfl, rfl, rfl, rfl,
   fun e => stepPending_settled_stays _ _ rfl e⟩

/-- C4 counterexample: a `tools/call` for the registry tool `"click"` with
arguments `{}` — which fail the `ClickTool` zod schema (`element` is a
required string) — does not produce a `-32602` invalid-params error and does
not skip the handler: the tool's `handle` runs (the `ranTool "click"` effect)
on the unvalidated arguments and its result is returned.  `handleToolCall`
performs no schema validation before invocation. -/
theorem c4_counterexample :
    clickArgumentsValid (some (.obj [])) = false ∧
    handleToolCall (snapshotTools hNull) (some (.num 7))
        (some (.obj [("name", .str "click"), ("arguments", .obj [])]))
      = [.ranTool "click", .sendEnvelope (.mcpResult (some (.num 7)) .null)] :=
  ⟨by decide, rfl⟩

/-- C4 (amended): the server performs no argument validation before invoking
a tool: for every `tools/call` whose `params.name` matches a registry tool,
the tool's `handle` is invoked on the `arguments` value exactly as supplied —
whether or not it satisfies the tool's input schema — and a failing handler
produces a `-32603` "Tool execution failed" error, never a `-32602`
invalid-params error. -/
theorem c4_no_validation_before_handler (tools : List Tool) (mid : Option Json)
    (fields : List (String × Json)) (t : Tool)
    (hfind : tools.find? (toolNameMatches ((Json.obj fields).getField "name")) = some t) :
    handleToolCall tools mid (some (.obj fields))
      = match t.handle ((Json.obj fields).getField "arguments") with
        | .ok r => [.ranTool t.schema.name, .sendEnvelope (.mcpResult mid r)]
        | .error e =>
            [.ranTool t.schema.name,
             .sendEnvelope (.mcpErr mid (-32603) ("Tool execution failed: " ++ e))] := by
  rw [handleToolCall_obj, hfind]

/-- C4 witness: the concrete invalid-arguments call of the counterexample,
through the amended theorem. -/
theorem c4_no_validation_before_handler_witness :
    ((snapshotTools hNull).find? (toolNameMatches
        ((Json.obj [("name", .str "click"), ("arguments", .obj [])]).getField "name"))
      = some ⟨⟨"click", "Click on an element on the page"⟩, hNull "click"⟩) ∧
    handleToolCall (snapshotTools hNull) (some (.num 7))
        (some (.obj [("name", .str "click"), ("arguments", .obj [])]))
      = match (hNull "click") ((Json.obj [("name", .str "click"),
            ("arguments", .obj [])]).getField "arguments") with
        | .ok r => [.ranTool "click", .sendEnvelope (.mcpResult (some (.num 7)) r)]
        | .error e =>
            [.ranTool "click",
             .sendEnvelope (.mcpErr (some (.num 7)) (-32603)
               ("Tool execution failed: " ++ e))] :=
  ⟨rfl,
   c4_no_validation_before_handler (snapshotTools hNull) (some (.num 7))
     [("name", .str "click"), ("arguments", .obj [])]
     ⟨⟨"click", "Click on an element on the page"⟩, hNull "click"⟩ rfl⟩

end BrowserMCP
